import Mathlib

/-
  Verification development for the repository
  PropagationOptimizationAssignments, source file
  src/HighThrust/propagationOptimizationHighThrustTransfer.cpp.

  The source is a single C++ application built on the Tudat astrodynamics
  library.  The parts of the program that live in the source file (the
  acceleration-map builder, the constant configuration, and the per-leg
  forward/backward reconciliation loop of `main`) are embedded shallowly
  below; doubles are modelled as exact rationals, mutable shared settings
  objects as an explicit indexed store, and the external Tudat solvers
  (dynamics simulator, Lagrange interpolator, patched-conic trajectory
  object) as explicit function parameters or, where a claim is about their
  contract, as definitions modelled from the specification.
-/

namespace HighThrustTransfer

/-- Three-dimensional vector of rationals (models Eigen Vector3d). -/
structure Vector3 where
  x : ℚ
  y : ℚ
  z : ℚ
deriving Inhabited

/-- Six-dimensional Cartesian state, position and velocity
(models Eigen Vector6d). -/
structure Vector6 where
  x : ℚ
  y : ℚ
  z : ℚ
  vx : ℚ
  vy : ℚ
  vz : ℚ
deriving DecidableEq, Inhabited

/-- Transfer leg types appearing in the source
(tudat transfer_trajectories TransferLegType values used at line 124). -/
inductive TransferLegType where
  | mga_Departure
  | mga_Swingby
  | capture
deriving DecidableEq

/-- The two acceleration settings types pushed by the source
(basic_astrodynamics central_gravity and point_mass_gravity). -/
inductive AccelType where
  | central_gravity
  | point_mass_gravity
deriving DecidableEq

/-- transferCaseNames (source line 111): the table of pairs of intermediate
flyby bodies, indexed by the case selector. -/
def transferCaseNames : List (String × String) :=
  [("Earth", "Earth"), ("Venus", "Earth"), ("Earth", "Venus"), ("Venus", "Mars"),
   ("Earth", "Mars"), ("Mars", "Mars"), ("Mars", "Venus")]

/-- trajectoryParameters (source line 116): start epoch (days since J2000),
four leg durations (days), and the case selector.  Doubles are modelled as
exact rationals. -/
def trajectoryParameters : List ℚ :=
  [-1851.46422926478, 94.13188652993128, 381.9429079287791, 55.6729929900098,
   700.990295462437, 1]

/-- transferCase (source line 119): the double at index 5 cast to int
(truncation; the value is a nonnegative integer so floor agrees). -/
def transferCase : ℤ := ⌊trajectoryParameters.getD 5 0⌋

/-- transferBodyOrder (source lines 122-123): Earth, Venus, the two case
bodies, Jupiter. -/
def transferBodyOrder : List String :=
  ["Earth", "Venus", (transferCaseNames.getD transferCase.toNat ("", "")).1,
   (transferCaseNames.getD transferCase.toNat ("", "")).2, "Jupiter"]

/-- transferLegTypes (source line 124). -/
def transferLegTypes : List TransferLegType :=
  [.mga_Departure, .mga_Swingby, .mga_Swingby, .mga_Swingby, .capture]

/-- captureSemiMajorAxis (source line 127). -/
def captureSemiMajorAxis : ℚ := 1.0895e8 / 0.02

/-- captureEccentricity (source line 128). -/
def captureEccentricity : ℚ := 0.98

/-- physical_constants JULIAN_DAY, in seconds. -/
def julianDay : ℚ := 86400

/-- The four leg durations in days: entries 1..4 of the parameter vector
(entry 0 is the start epoch, entry 5 the case selector). -/
def legDurations : List ℚ := (trajectoryParameters.take 5).drop 1

/-- trajectoryIndependentVariables (source lines 158-162): the first five
parameters converted from days to seconds.  The source additionally pushes a
NaN sentinel entry for interface consistency (line 165), which carries no
data and is not modelled. -/
def trajectoryIndependentVariables : List ℚ :=
  (trajectoryParameters.take 5).map (fun q => q * julianDay)

/-- The body-sequence entry at position i (models vector::at; the default
value is immaterial, all accesses in the program are in range). -/
def bodyAt (order : List String) (i : ℕ) : String := order.getD i ""

/-- The per-leg acceleration settings built by the loop body of
getAccelerationModelsPerturbedPatchedConicsTrajectory (source lines 41-56):
central gravity of the central body, point-mass gravity of the trailing body
transferBodyOrder[i], and, when i is not the last index and the following
body differs from the trailing one, point-mass gravity of
transferBodyOrder[i+1]. -/
def legAccelerationSettings (numberOfLegs : ℕ) (nameCentralBody : String)
    (transferBodyOrder : List String) (i : ℕ) : List (String × AccelType) :=
  [(nameCentralBody, AccelType.central_gravity),
   (bodyAt transferBodyOrder i, AccelType.point_mass_gravity)] ++
  (if i ≠ numberOfLegs - 1 then
    (if bodyAt transferBodyOrder i ≠ bodyAt transferBodyOrder (i + 1) then
      [(bodyAt transferBodyOrder (i + 1), AccelType.point_mass_gravity)]
     else [])
   else [])

/-- getAccelerationModelsPerturbedPatchedConicsTrajectory
(source lines 31-64): one acceleration map per loop index i < numberOfLegs,
keyed by the propagated body. -/
def getAccelerationModelsPerturbedPatchedConicsTrajectory
    (numberOfLegs : ℕ) (nameCentralBody nameBodyToPropagate : String)
    (transferBodyOrder : List String) :
    List (String × List (String × AccelType)) :=
  (List.range numberOfLegs).map
    (fun i => (nameBodyToPropagate,
               legAccelerationSettings numberOfLegs nameCentralBody transferBodyOrder i))

/-- currentArcMiddleTime (source lines 271 and 322-327), as a function of the
arc index: arc 0 starts at parameter 0 plus half of parameter 1 (days), and
each later arc adds half of the previous duration plus half of its own. -/
def currentArcMiddleTime (p : ℕ → ℚ) : ℕ → ℚ
  | 0 => p 0 + p 1 / 2
  | n + 1 => currentArcMiddleTime p n + (p (n + 1) + p (n + 2)) / 2

/-- Modelled from the spec: the start epoch of leg i (days) under the epoch
semantics of the trajectory parameter vector (first entry the first-leg start
epoch, entry j+1 the duration of leg j); the cumulative duration schedule. -/
def legStartDay (p : ℕ → ℚ) (i : ℕ) : ℚ :=
  p 0 + (Finset.range i).sum (fun j => p (j + 1))

/-- Modelled from the spec: the end epoch of leg i (days), the start epoch
plus the duration of leg i. -/
def legEndDay (p : ℕ → ℚ) (i : ℕ) : ℚ := legStartDay p i + p (i + 1)

/-- Maneuver record: epoch, position and delta-v magnitude, as returned by
trajectory.maneuvers (source lines 183-186). -/
structure Maneuver where
  epoch : ℚ
  position : Vector3
  velocityChangeMagnitude : ℚ
deriving Inhabited

/-- Modelled from the spec: the Tudat transfer_trajectories Trajectory object
created by createTransferTrajectoryObject (source lines 168-171).  The class
itself lives in the external Tudat library, so its observable contract is
modelled from the specification: it owns one maneuver per leg (the departure
maneuver first), a capture maneuver with the configured capture orbit shape,
and the two flags passed at the call site that select whether the departure
and the arrival (capture) delta-v enter the total. -/
structure TrajectoryModel where
  legTypes : List TransferLegType
  legManeuvers : List Maneuver
  captureManeuver : Maneuver
  captureSemiMajorAxis : ℚ
  captureEccentricity : ℚ
  includeDepartureDeltaV : Bool
  includeArrivalDeltaV : Bool

/-- Modelled from the spec: a capture leg is configured when the final entry
of the leg-type vector is the capture type. -/
def hasCaptureLeg (t : TrajectoryModel) : Prop :=
  t.legTypes.getLastD TransferLegType.mga_Departure = TransferLegType.capture

instance (t : TrajectoryModel) : Decidable (hasCaptureLeg t) :=
  inferInstanceAs (Decidable (t.legTypes.getLastD TransferLegType.mga_Departure
    = TransferLegType.capture))

/-- Modelled from the spec: trajectory.maneuvers (source line 186) reports
every maneuver of the transfer: one per leg including the departure maneuver,
plus the capture maneuver when a capture leg is configured. -/
def maneuvers (t : TrajectoryModel) : List Maneuver :=
  t.legManeuvers ++ (if hasCaptureLeg t then [t.captureManeuver] else [])

/-- Modelled from the spec: trajectory.calculateTrajectory (source line 176)
accumulates the total delta-v; the departure maneuver enters only when the
departure flag is set (the source passes false at line 170), and the capture
maneuver only when a capture leg is configured and the arrival flag is set
(the source passes true at line 170). -/
def calculateTrajectory (t : TrajectoryModel) : ℚ :=
  ((if t.includeDepartureDeltaV then t.legManeuvers else t.legManeuvers.drop 1).map
      (fun m => m.velocityChangeMagnitude)).sum
  + (if hasCaptureLeg t ∧ t.includeArrivalDeltaV = true
     then t.captureManeuver.velocityChangeMagnitude else 0)

/-- Modelled from the spec: trajectory.getCaptureDeltaV (source line 178)
reports the capture maneuver delta-v separately. -/
def getCaptureDeltaV (t : TrajectoryModel) : ℚ :=
  t.captureManeuver.velocityChangeMagnitude

/-- The trajectory object exactly as configured by the source call at lines
168-171: leg types from transferLegTypes, capture orbit shape from the two
configured constants, includeDepartureDeltaV = false and
includeArrivalDeltaV = true.  The per-leg maneuvers and the capture maneuver
values are computed by the external solver and stay abstract. -/
def scenarioTrajectory (legMans : List Maneuver) (capMan : Maneuver) : TrajectoryModel :=
  { legTypes := transferLegTypes
    legManeuvers := legMans
    captureManeuver := capMan
    captureSemiMajorAxis := captureSemiMajorAxis
    captureEccentricity := captureEccentricity
    includeDepartureDeltaV := false
    includeArrivalDeltaV := true }

/-- A propagated state history: time-ordered (epoch, state) samples,
modelling std::map double to Vector6d. -/
abbrev LegHistory : Type := List (ℚ × Vector6)

/-- First stored epoch of a history (std::map begin()->first). -/
def histFirstTime (h : LegHistory) : ℚ := (h.map Prod.fst).headD 0

/-- Last stored epoch of a history (std::map rbegin()->first). -/
def histLastTime (h : LegHistory) : ℚ := (h.map Prod.fst).getLastD 0

/-- IntegratorSettings (source lines 201-203): the single shared mutable
object holding the initial time (reset at line 285 before every use; the
initial NaN sentinel of line 203 is modelled as 0 since it is never read) and
the initial time step (1000.0 at creation). -/
structure IntegratorSettings where
  initialTime : ℚ
  initialTimeStep : ℚ

/-- A mutable TranslationalStatePropagatorSettings object: the two fields the
loop resets (initial state at lines 290/308, termination time at lines
291/309) plus the immutable acceleration settings the object was created
with. -/
structure PropagatorSettings where
  initialStates : Vector6
  terminationTime : ℚ
  accelerations : List (String × AccelType)
deriving Inhabited

/-- Per-arc output of the reconciliation loop: the arc index and the forward
and backward propagated histories written to file (lines 300-302, 318-320). -/
structure ArcOutput where
  arcIndex : ℕ
  forwardHistory : LegHistory
  backwardHistory : LegHistory

/-- The mutable state threaded through the loop of source lines 271-328: the
store of propagator-settings objects (indexed by object identity, so that
shared_ptr aliasing is explicit), the shared integrator-settings object, the
running currentArcMiddleTime accumulator (days), and the outputs written so
far. -/
structure LoopState where
  store : List PropagatorSettings
  integrator : IntegratorSettings
  middleTime : ℚ
  outputs : List ArcOutput

/-- The body of the per-leg reconciliation loop (source lines 272-328).
Externals are explicit function parameters: simulate models the
SingleArcDynamicsSimulator as a map from the settings objects it is
constructed from to the propagated history, and interp models
createOneDimensionalInterpolator with LagrangeInterpolatorSettings, applied
to a history, the interpolator order and the evaluation epoch.  Following the
source: the seed state is interpolated from the fullProblemSolution of the
current arc at the running middle time converted to seconds with order 8;
the forward run resets the initial state and the termination time of the
pair member .2 (the source uses the .second member for both runs, the .first
member is never read), takes the absolute value of the shared time step and
simulates; the backward run resets the very same stored object, negates the
shared time step and simulates; finally the middle time is advanced for the
next arc. -/
def processArc (simulate : PropagatorSettings → IntegratorSettings → LegHistory)
    (interp : LegHistory → ℕ → ℚ → Vector6)
    (pairs : List (ℕ × ℕ)) (p : ℕ → ℚ) (numArcs : ℕ)
    (st : LoopState) (arc : ℕ × LegHistory) : LoopState :=
  let currentArcMiddleState := interp arc.2 8 (st.middleTime * 86400)
  let integrator1 : IntegratorSettings :=
    { st.integrator with initialTime := st.middleTime * 86400 }
  let settingsId := (pairs.getD arc.1 (0, 0)).2
  let forwardPropagatorSettings : PropagatorSettings :=
    { st.store.getD settingsId default with
      initialStates := currentArcMiddleState
      terminationTime := histLastTime arc.2 }
  let store1 := st.store.set settingsId forwardPropagatorSettings
  let integrator2 : IntegratorSettings :=
    { integrator1 with initialTimeStep := |integrator1.initialTimeStep| }
  let forwardHistory := simulate forwardPropagatorSettings integrator2
  let backwardPropagatorSettings : PropagatorSettings :=
    { store1.getD settingsId default with
      initialStates := currentArcMiddleState
      terminationTime := histFirstTime arc.2 }
  let store2 := store1.set settingsId backwardPropagatorSettings
  let integrator3 : IntegratorSettings :=
    { integrator2 with initialTimeStep := integrator2.initialTimeStep * (-1) }
  let backwardHistory := simulate backwardPropagatorSettings integrator3
  { store := store2
    integrator := integrator3
    middleTime :=
      if arc.1 < numArcs - 1
      then st.middleTime + (p (arc.1 + 1) + p (arc.1 + 2)) / 2
      else st.middleTime
    outputs := st.outputs ++
      [{ arcIndex := arc.1
         forwardHistory := forwardHistory
         backwardHistory := backwardHistory }] }

/-- The external data entering the reconciliation loop: the analytic and the
numerical per-leg histories produced by fullPropagationPatchedConicsTrajectory
(source lines 252-260), the per-leg pairs of propagator-settings object
identities from getPatchedConicPropagatorSettings (lines 238-243), the store
of settings objects those identities point into, and the two external
algorithms. -/
structure Externals where
  lambertTargeterResultForEachLeg : List (ℕ × LegHistory)
  fullProblemResultForEachLeg : List (ℕ × LegHistory)
  propagatorSettingsPairs : List (ℕ × ℕ)
  settingsStore : List PropagatorSettings
  simulate : PropagatorSettings → IntegratorSettings → LegHistory
  interp : LegHistory → ℕ → ℚ → Vector6

/-- The whole reconciliation loop (source lines 271-328): the middle time
starts at parameter 0 plus half of parameter 1 (line 271) and the loop folds
processArc over fullProblemResultForEachLeg. -/
def runReconciliationLoop (ext : Externals) (params : List ℚ) : LoopState :=
  ext.fullProblemResultForEachLeg.foldl
    (processArc ext.simulate ext.interp ext.propagatorSettingsPairs
      (fun i => params.getD i 0) ext.fullProblemResultForEachLeg.length)
    { store := ext.settingsStore
      integrator := { initialTime := 0, initialTimeStep := 1000 }
      middleTime := params.getD 0 0 + params.getD 1 0 / 2
      outputs := [] }

/-- Error taxonomy of the specification for the numerical phase. -/
inductive IntegrationError where
  | interpolationOutsideDomain
  | nonFiniteState

/-- The loop body with fallible externals: the interpolator and the dynamics
simulator may signal an IntegrationError, and the source loop (lines 272-328)
contains no handler, so the error propagates out of the body exactly like a
thrown C++ exception. -/
def processArcE
    (simulateE : PropagatorSettings → IntegratorSettings → Except IntegrationError LegHistory)
    (interpE : LegHistory → ℕ → ℚ → Except IntegrationError Vector6)
    (pairs : List (ℕ × ℕ)) (p : ℕ → ℚ) (numArcs : ℕ)
    (st : LoopState) (arc : ℕ × LegHistory) : Except IntegrationError LoopState := do
  let currentArcMiddleState ← interpE arc.2 8 (st.middleTime * 86400)
  let integrator1 : IntegratorSettings :=
    { st.integrator with initialTime := st.middleTime * 86400 }
  let settingsId := (pairs.getD arc.1 (0, 0)).2
  let forwardPropagatorSettings : PropagatorSettings :=
    { st.store.getD settingsId default with
      initialStates := currentArcMiddleState
      terminationTime := histLastTime arc.2 }
  let store1 := st.store.set settingsId forwardPropagatorSettings
  let integrator2 : IntegratorSettings :=
    { integrator1 with initialTimeStep := |integrator1.initialTimeStep| }
  let forwardHistory ← simulateE forwardPropagatorSettings integrator2
  let backwardPropagatorSettings : PropagatorSettings :=
    { store1.getD settingsId default with
      initialStates := currentArcMiddleState
      terminationTime := histFirstTime arc.2 }
  let store2 := store1.set settingsId backwardPropagatorSettings
  let integrator3 : IntegratorSettings :=
    { integrator2 with initialTimeStep := integrator2.initialTimeStep * (-1) }
  let backwardHistory ← simulateE backwardPropagatorSettings integrator3
  pure { store := store2
         integrator := integrator3
         middleTime :=
           if arc.1 < numArcs - 1
           then st.middleTime + (p (arc.1 + 1) + p (arc.1 + 2)) / 2
           else st.middleTime
         outputs := st.outputs ++
           [{ arcIndex := arc.1
              forwardHistory := forwardHistory
              backwardHistory := backwardHistory }] }

/-- The loop of source lines 272-328 with fallible externals: a monadic fold,
so an error raised while reconciling one leg escapes the whole loop and no
later leg is processed, mirroring the absence of any try/catch in main. -/
def reconcileAllLegsE
    (simulateE : PropagatorSettings → IntegratorSettings → Except IntegrationError LegHistory)
    (interpE : LegHistory → ℕ → ℚ → Except IntegrationError Vector6)
    (pairs : List (ℕ × ℕ)) (p : ℕ → ℚ) (numArcs : ℕ)
    (results : List (ℕ × LegHistory)) (st : LoopState) :
    Except IntegrationError LoopState :=
  results.foldlM (processArcE simulateE interpE pairs p numArcs) st

/-- Whether an Except value carries a result. -/
def isOkE (e : Except IntegrationError LoopState) : Bool :=
  match e with
  | .ok _ => true
  | .error _ => false

/-- The external solvers of the pipeline as deterministic functions of the
trajectory parameter vector: the per-leg maneuvers and the capture maneuver
of the patched-conic solver, the two per-leg history collections, the
propagator-settings pairs and store, and the two external algorithms. -/
structure ExternalSolvers where
  legManeuversOf : List ℚ → List Maneuver
  captureManeuverOf : List ℚ → Maneuver
  lambertResultsOf : List ℚ → List (ℕ × LegHistory)
  fullResultsOf : List ℚ → List (ℕ × LegHistory)
  pairsOf : List ℚ → List (ℕ × ℕ)
  storeOf : List ℚ → List PropagatorSettings
  simulate : PropagatorSettings → IntegratorSettings → LegHistory
  interp : LegHistory → ℕ → ℚ → Vector6

/-- Everything main computes from the parameter vector: the delta-v summary
and maneuver list of the trajectory object, the analytic histories, and the
final state of the reconciliation loop. -/
structure PipelineResult where
  totalDeltaV : ℚ
  captureDeltaV : ℚ
  maneuverList : List Maneuver
  lambertTargeterResultForEachLeg : List (ℕ × LegHistory)
  reconciliation : LoopState

/-- The embedded pipeline of main (source lines 98-358) as a function of the
trajectory parameter vector, the external solvers held fixed: build the
trajectory object with the source flags, read the totals and maneuvers,
retrieve the per-leg histories and run the reconciliation loop. -/
def runPipeline (ext : ExternalSolvers) (params : List ℚ) : PipelineResult :=
  let t : TrajectoryModel :=
    scenarioTrajectory (ext.legManeuversOf params) (ext.captureManeuverOf params)
  { totalDeltaV := calculateTrajectory t
    captureDeltaV := getCaptureDeltaV t
    maneuverList := maneuvers t
    lambertTargeterResultForEachLeg := ext.lambertResultsOf params
    reconciliation := runReconciliationLoop
      { lambertTargeterResultForEachLeg := ext.lambertResultsOf params
        fullProblemResultForEachLeg := ext.fullResultsOf params
        propagatorSettingsPairs := ext.pairsOf params
        settingsStore := ext.storeOf params
        simulate := ext.simulate
        interp := ext.interp } params }

/-- A six-dimensional state with the given first component. -/
def v6 (q : ℚ) : Vector6 := ⟨q, 0, 0, 0, 0, 0⟩

/-- A concrete interpolator instance: returns the state stored at the first
sample of the history, whatever the requested order and epoch. -/
def headInterp : LegHistory → ℕ → ℚ → Vector6 :=
  fun h _ _ => (h.headD (0, default)).2

/-- Concrete externals for which the analytic (lambert) history and the
numerical (full-problem) history of leg 0 store different states at the
midpoint epoch 0: the analytic history holds v6 3, the numerical one v6 1. -/
def cexExternals : Externals :=
  { lambertTargeterResultForEachLeg := [(0, [(0, v6 3)])]
    fullProblemResultForEachLeg := [(0, [(0, v6 1)])]
    propagatorSettingsPairs := [(0, 1)]
    settingsStore := [default, default]
    simulate := fun _ _ => []
    interp := headInterp }

/-- A concrete simulator instance for witnesses: the solution holds exactly
the initial condition of the run. -/
def echoSimulate : PropagatorSettings → IntegratorSettings → LegHistory :=
  fun s ist => [(ist.initialTime, s.initialStates)]

/-- A concrete loop state for witnesses: a one-object store, the integrator
of source line 203 and middle time 0. -/
def witnessState : LoopState :=
  { store := [default]
    integrator := { initialTime := 0, initialTimeStep := 1000 }
    middleTime := 0
    outputs := [] }

/-- A concrete fallible interpolator: it rejects exactly the histories whose
first sample stores the state v6 9 (modelling a leg on which the
interpolation request fails, for instance because the epoch lies outside the
covered span), and succeeds on every other history. -/
def cexInterpE : LegHistory → ℕ → ℚ → Except IntegrationError Vector6 :=
  fun h _ _ =>
    if (h.headD (0, default)).2 = v6 9 then .error .interpolationOutsideDomain
    else .ok default

/-- A concrete fallible simulator that always succeeds, echoing its initial
condition. -/
def cexSimulateE : PropagatorSettings → IntegratorSettings →
    Except IntegrationError LegHistory :=
  fun s ist => .ok [(ist.initialTime, s.initialStates)]

/-- A concrete loop state for the error-propagation scenario: two settings
objects, the integrator of source line 203, middle time 0. -/
def cexLoopState : LoopState :=
  { store := [default, default]
    integrator := { initialTime := 0, initialTimeStep := 1000 }
    middleTime := 0
    outputs := [] }

/-- Constant external solvers for the determinism witness. -/
def constExternalSolvers : ExternalSolvers :=
  { legManeuversOf := fun _ => []
    captureManeuverOf := fun _ => default
    lambertResultsOf := fun _ => []
    fullResultsOf := fun _ => []
    pairsOf := fun _ => []
    storeOf := fun _ => []
    simulate := fun _ _ => []
    interp := fun _ _ _ => default }

/-- Helper: reading the just-written position of a list store. -/
theorem getD_set_self {α : Type} [Inhabited α] (l : List α) (i : ℕ) (a : α)
    (h : i < l.length) : (l.set i a).getD i default = a := by
  induction l generalizing i with
  | nil => simp at h
  | cons b t ih =>
    cases i with
    | zero => rfl
    | succ n =>
      simp only [List.set, List.getD, List.getElem?_cons_succ]
      exact ih n (by simpa using h)

/-- Claim C1, counterexample.  The claim states that the seed state for the
forward and backward integrations is obtained by interpolating the leg's
ANALYTIC (lambert-targeter) state history at the midpoint epoch.  In the
source (lines 272-282) the loop iterates fullProblemResultForEachLeg and
interpolates fullProblemSolution, the NUMERICAL full-problem history.  Here
is a concrete run in which the two histories differ: the seed actually
stored into the settings object equals the order-8 interpolation of the
numerical history and differs from the order-8 interpolation of the
analytic history at the same midpoint epoch. -/
theorem seed_not_from_analytic_history_counterexample :
    ((runReconciliationLoop cexExternals [0, 0]).store.getD 1 default).initialStates
      = cexExternals.interp ((cexExternals.fullProblemResultForEachLeg.getD 0 (0, [])).2) 8
          (currentArcMiddleTime (fun i => List.getD [(0 : ℚ), 0] i 0) 0 * 86400) ∧
    ((runReconciliationLoop cexExternals [0, 0]).store.getD 1 default).initialStates
      ≠ cexExternals.interp ((cexExternals.lambertTargeterResultForEachLeg.getD 0 (0, [])).2) 8
          (currentArcMiddleTime (fun i => List.getD [(0 : ℚ), 0] i 0) 0 * 86400) := by
  decide

/-- Claim C1, amended.  For every leg processed by the reconciliation loop,
the seed state used to start both the forward and the backward numerical
integration is obtained by interpolating that leg's NUMERICALLY PROPAGATED
full-problem state history (the entry of fullProblemResultForEachLeg the loop
iterates over) at the leg's temporal midpoint epoch with an 8th-order
Lagrange interpolation scheme. -/
theorem seed_interpolated_from_full_problem_history
    (simulate : PropagatorSettings → IntegratorSettings → LegHistory)
    (interp : LegHistory → ℕ → ℚ → Vector6)
    (pairs : List (ℕ × ℕ)) (p : ℕ → ℚ) (numArcs : ℕ)
    (st : LoopState) (arc : ℕ × LegHistory) :
    ∃ fwdS bwdS : PropagatorSettings, ∃ fwdI bwdI : IntegratorSettings,
      (processArc simulate interp pairs p numArcs st arc).outputs
        = st.outputs ++ [{ arcIndex := arc.1
                           forwardHistory := simulate fwdS fwdI
                           backwardHistory := simulate bwdS bwdI }] ∧
      fwdS.initialStates = interp arc.2 8 (st.middleTime * 86400) ∧
      bwdS.initialStates = interp arc.2 8 (st.middleTime * 86400) := by
  refine ⟨_, _, _, _, rfl, rfl, rfl⟩

/-- Claim C2.  For every leg, the forward integration starts from the
midpoint seed state with a positive time step and terminates at the last
epoch of the leg's history (the leg end epoch), the backward integration
starts from the identical seed state with the negated time step and
terminates at the first epoch (the leg start epoch), both share the same
acceleration model, and both runs carry the identical midpoint sample
(midpoint epoch, seed state), given that the external simulator includes its
initial condition in its solution. -/
theorem forward_backward_from_shared_seed
    (simulate : PropagatorSettings → IntegratorSettings → LegHistory)
    (interp : LegHistory → ℕ → ℚ → Vector6)
    (pairs : List (ℕ × ℕ)) (p : ℕ → ℚ) (numArcs : ℕ)
    (st : LoopState) (arc : ℕ × LegHistory)
    (hid : (pairs.getD arc.1 (0, 0)).2 < st.store.length)
    (hstep : st.integrator.initialTimeStep ≠ 0)
    (hsim : ∀ s ist, (ist.initialTime, s.initialStates) ∈ simulate s ist) :
    ∃ fwdS bwdS : PropagatorSettings, ∃ fwdI bwdI : IntegratorSettings,
      (processArc simulate interp pairs p numArcs st arc).outputs
        = st.outputs ++ [{ arcIndex := arc.1
                           forwardHistory := simulate fwdS fwdI
                           backwardHistory := simulate bwdS bwdI }] ∧
      fwdS.initialStates = bwdS.initialStates ∧
      fwdS.accelerations = bwdS.accelerations ∧
      fwdS.terminationTime = histLastTime arc.2 ∧
      bwdS.terminationTime = histFirstTime arc.2 ∧
      fwdI.initialTime = st.middleTime * 86400 ∧
      bwdI.initialTime = fwdI.initialTime ∧
      0 < fwdI.initialTimeStep ∧
      bwdI.initialTimeStep = -fwdI.initialTimeStep ∧
      (fwdI.initialTime, fwdS.initialStates) ∈ simulate fwdS fwdI ∧
      (bwdI.initialTime, bwdS.initialStates) ∈ simulate bwdS bwdI := by
  have hb : (st.store.set ((pairs.getD arc.1 (0, 0)).2)
        { st.store.getD ((pairs.getD arc.1 (0, 0)).2) default with
          initialStates := interp arc.2 8 (st.middleTime * 86400)
          terminationTime := histLastTime arc.2 }).getD ((pairs.getD arc.1 (0, 0)).2) default
      = { st.store.getD ((pairs.getD arc.1 (0, 0)).2) default with
          initialStates := interp arc.2 8 (st.middleTime * 86400)
          terminationTime := histLastTime arc.2 } :=
    getD_set_self _ _ _ hid
  refine ⟨{ st.store.getD ((pairs.getD arc.1 (0, 0)).2) default with
            initialStates := interp arc.2 8 (st.middleTime * 86400)
            terminationTime := histLastTime arc.2 },
          { (st.store.set ((pairs.getD arc.1 (0, 0)).2)
              { st.store.getD ((pairs.getD arc.1 (0, 0)).2) default with
                initialStates := interp arc.2 8 (st.middleTime * 86400)
                terminationTime := histLastTime arc.2 }).getD ((pairs.getD arc.1 (0, 0)).2) default with
            initialStates := interp arc.2 8 (st.middleTime * 86400)
            terminationTime := histFirstTime arc.2 },
          { st.integrator with initialTime := st.middleTime * 86400
                               initialTimeStep := |st.integrator.initialTimeStep| },
          { st.integrator with initialTime := st.middleTime * 86400
                               initialTimeStep := |st.integrator.initialTimeStep| * (-1) },
          rfl, rfl, ?_, rfl, rfl, rfl, rfl, abs_pos.mpr hstep, mul_neg_one _, hsim _ _, hsim _ _⟩
  rw [hb]

/-- Claim C2, witness: the theorem applied to a concrete one-leg run with the
echo simulator. -/
theorem forward_backward_from_shared_seed_witness :
    (([(0, 0)] : List (ℕ × ℕ)).getD (0, [(0, (default : Vector6))]).1 (0, 0)).2
        < witnessState.store.length ∧
    witnessState.integrator.initialTimeStep ≠ 0 ∧
    (∀ s ist, (ist.initialTime, s.initialStates) ∈ echoSimulate s ist) ∧
    (∃ fwdS bwdS : PropagatorSettings, ∃ fwdI bwdI : IntegratorSettings,
      (processArc echoSimulate headInterp [(0, 0)] (fun _ => 0) 1 witnessState
          (0, [(0, (default : Vector6))])).outputs
        = witnessState.outputs ++ [{ arcIndex := (0, [(0, (default : Vector6))]).1
                                     forwardHistory := echoSimulate fwdS fwdI
                                     backwardHistory := echoSimulate bwdS bwdI }] ∧
      fwdS.initialStates = bwdS.initialStates ∧
      fwdS.accelerations = bwdS.accelerations ∧
      fwdS.terminationTime = histLastTime (0, [(0, (default : Vector6))]).2 ∧
      bwdS.terminationTime = histFirstTime (0, [(0, (default : Vector6))]).2 ∧
      fwdI.initialTime = witnessState.middleTime * 86400 ∧
      bwdI.initialTime = fwdI.initialTime ∧
      0 < fwdI.initialTimeStep ∧
      bwdI.initialTimeStep = -fwdI.initialTimeStep ∧
      (fwdI.initialTime, fwdS.initialStates) ∈ echoSimulate fwdS fwdI ∧
      (bwdI.initialTime, bwdS.initialStates) ∈ echoSimulate bwdS bwdI) :=
  ⟨by decide, by decide, fun s ist => by simp [echoSimulate],
   forward_backward_from_shared_seed echoSimulate headInterp [(0, 0)] (fun _ => 0) 1
     witnessState (0, [(0, (default : Vector6))]) (by decide) (by decide)
     (fun s ist => by simp [echoSimulate])⟩

/-- Claim C3.  With the flags the source passes (departure delta-v excluded,
arrival delta-v included), the total velocity change reported by the
trajectory object equals the sum of all reported maneuver magnitudes minus
the departure maneuver magnitude, while the departure maneuver itself is
still present in the reported maneuver sequence. -/
theorem totalDeltaV_excludes_departure (legMans : List Maneuver) (capMan : Maneuver)
    (hne : legMans ≠ []) :
    calculateTrajectory (scenarioTrajectory legMans capMan)
      = ((maneuvers (scenarioTrajectory legMans capMan)).map
          (fun m => m.velocityChangeMagnitude)).sum
        - (legMans.headD default).velocityChangeMagnitude ∧
    legMans.headD default ∈ maneuvers (scenarioTrajectory legMans capMan) := by
  obtain ⟨m0, rest, rfl⟩ := List.exists_cons_of_ne_nil hne
  have hcap : hasCaptureLeg (scenarioTrajectory (m0 :: rest) capMan) := rfl
  constructor
  · rw [calculateTrajectory, maneuvers, if_pos hcap]
    rw [if_pos (⟨hcap, rfl⟩ : hasCaptureLeg (scenarioTrajectory (m0 :: rest) capMan) ∧
      (scenarioTrajectory (m0 :: rest) capMan).includeArrivalDeltaV = true)]
    simp [scenarioTrajectory]
  · rw [maneuvers]
    simp [scenarioTrajectory]

/-- Claim C3, witness: concrete maneuver magnitudes 5 and 7 with a capture
maneuver of magnitude 3. -/
theorem totalDeltaV_excludes_departure_witness :
    ([⟨0, default, 5⟩, ⟨1, default, 7⟩] : List Maneuver) ≠ [] ∧
    (calculateTrajectory (scenarioTrajectory [⟨0, default, 5⟩, ⟨1, default, 7⟩] ⟨2, default, 3⟩)
      = ((maneuvers (scenarioTrajectory [⟨0, default, 5⟩, ⟨1, default, 7⟩] ⟨2, default, 3⟩)).map
          (fun m => m.velocityChangeMagnitude)).sum
        - (([⟨0, default, 5⟩, ⟨1, default, 7⟩] : List Maneuver).headD default).velocityChangeMagnitude ∧
     ([⟨0, default, 5⟩, ⟨1, default, 7⟩] : List Maneuver).headD default
       ∈ maneuvers (scenarioTrajectory [⟨0, default, 5⟩, ⟨1, default, 7⟩] ⟨2, default, 3⟩)) :=
  ⟨by simp, totalDeltaV_excludes_departure [⟨0, default, 5⟩, ⟨1, default, 7⟩] ⟨2, default, 3⟩
    (by simp)⟩

/-- Claim C4.  With the capture leg configured (the source leg-type vector
ends in capture) and the source flags, the capture delta-v is retrievable
separately through getCaptureDeltaV, the capture maneuver appears in the
maneuver sequence, the total velocity change includes the capture delta-v,
and the trajectory object carries the configured capture orbit semi-major
axis and eccentricity. -/
theorem captureDeltaV_reported_and_included (legMans : List Maneuver) (capMan : Maneuver) :
    getCaptureDeltaV (scenarioTrajectory legMans capMan) = capMan.velocityChangeMagnitude ∧
    capMan ∈ maneuvers (scenarioTrajectory legMans capMan) ∧
    calculateTrajectory (scenarioTrajectory legMans capMan)
      = ((legMans.drop 1).map (fun m => m.velocityChangeMagnitude)).sum
        + getCaptureDeltaV (scenarioTrajectory legMans capMan) ∧
    (scenarioTrajectory legMans capMan).captureSemiMajorAxis = captureSemiMajorAxis ∧
    (scenarioTrajectory legMans capMan).captureEccentricity = captureEccentricity := by
  have hcap : hasCaptureLeg (scenarioTrajectory legMans capMan) := rfl
  refine ⟨rfl, ?_, ?_, rfl, rfl⟩
  · rw [maneuvers, if_pos hcap]
    simp
    exact Or.inr rfl
  · rw [calculateTrajectory, if_pos (⟨hcap, rfl⟩ :
      hasCaptureLeg (scenarioTrajectory legMans capMan) ∧
      (scenarioTrajectory legMans capMan).includeArrivalDeltaV = true)]
    simp [scenarioTrajectory, getCaptureDeltaV]

/-- Claim C5, counterexample.  The claim states that the per-leg structures
(leg types, acceleration maps) have exactly bodyCount minus one entries and
that the leg types are [Departure, Swingby, Swingby, Capture].  In the
source the leg-type vector (line 124) has 5 entries for the 5 bodies, the
acceleration-map vector is built with transferLegTypes.size() = 5 entries
(line 198), and the types are [Departure, Swingby, Swingby, Swingby,
Capture]. -/
theorem legCount_counterexample :
    transferBodyOrder.length = 5 ∧
    transferLegTypes.length ≠ transferBodyOrder.length - 1 ∧
    (getAccelerationModelsPerturbedPatchedConicsTrajectory transferLegTypes.length
        "Sun" "Spacecraft" transferBodyOrder).length ≠ transferBodyOrder.length - 1 ∧
    transferLegTypes ≠ [TransferLegType.mga_Departure, TransferLegType.mga_Swingby,
      TransferLegType.mga_Swingby, TransferLegType.capture] := by
  decide

/-- Claim C5, amended.  The default scenario has the 5-body sequence
Earth-Venus-Venus-Earth-Jupiter and bodyCount minus one = 4 leg durations in
the parameter vector, but the leg-type vector is [Departure, Swingby,
Swingby, Swingby, Capture] with bodyCount = 5 entries (the capture entry is
an extra terminal entry), and the acceleration-map vector, built from
transferLegTypes.size(), also has 5 entries. -/
theorem legCount_amended :
    transferBodyOrder.length = 5 ∧
    legDurations.length = transferBodyOrder.length - 1 ∧
    transferLegTypes = [TransferLegType.mga_Departure, TransferLegType.mga_Swingby,
      TransferLegType.mga_Swingby, TransferLegType.mga_Swingby, TransferLegType.capture] ∧
    transferLegTypes.length = transferBodyOrder.length ∧
    (getAccelerationModelsPerturbedPatchedConicsTrajectory transferLegTypes.length
        "Sun" "Spacecraft" transferBodyOrder).length = transferLegTypes.length := by
  decide

/-- Claim C6.  For every leg index i below the leg count, the perturbation
set contains central-body gravity plus point-mass gravity of the trailing
body transferBodyOrder[i]; the entry for transferBodyOrder[i+1] is added
exactly when i is not the last index and transferBodyOrder[i+1] differs from
transferBodyOrder[i] (the set then has 3 entries instead of 2), and the set
never contains duplicate entries, in particular not when two consecutive
sequence entries are equal. -/
theorem accelerationModels_per_leg
    (n : ℕ) (central bodyToPropagate : String) (order : List String) (i : ℕ)
    (hi : i < n) :
    (getAccelerationModelsPerturbedPatchedConicsTrajectory n central bodyToPropagate order).length = n ∧
    (getAccelerationModelsPerturbedPatchedConicsTrajectory n central bodyToPropagate order).getD i
        (bodyToPropagate, [])
      = (bodyToPropagate, legAccelerationSettings n central order i) ∧
    (central, AccelType.central_gravity) ∈ legAccelerationSettings n central order i ∧
    (bodyAt order i, AccelType.point_mass_gravity) ∈ legAccelerationSettings n central order i ∧
    (if i ≠ n - 1 ∧ bodyAt order i ≠ bodyAt order (i + 1) then
       (legAccelerationSettings n central order i).length = 3 ∧
         (bodyAt order (i + 1), AccelType.point_mass_gravity) ∈ legAccelerationSettings n central order i
     else (legAccelerationSettings n central order i).length = 2) ∧
    (legAccelerationSettings n central order i).Nodup := by
  refine ⟨?_, ?_, ?_, ?_, ?_, ?_⟩
  · simp [getAccelerationModelsPerturbedPatchedConicsTrajectory]
  · simp [getAccelerationModelsPerturbedPatchedConicsTrajectory, List.getD,
      List.getElem?_map, List.getElem?_range hi]
  · by_cases h1 : i = n - 1 <;> by_cases h2 : bodyAt order i = bodyAt order (i + 1) <;>
      simp [legAccelerationSettings, h1, h2]
  · by_cases h1 : i = n - 1 <;> by_cases h2 : bodyAt order i = bodyAt order (i + 1) <;>
      simp [legAccelerationSettings, h1, h2]
  · by_cases h1 : i = n - 1 <;> by_cases h2 : bodyAt order i = bodyAt order (i + 1) <;>
      simp [legAccelerationSettings, h1, h2]
  · by_cases h1 : i = n - 1 <;> by_cases h2 : bodyAt order i = bodyAt order (i + 1) <;>
      simp [legAccelerationSettings, h1, h2]

/-- Claim C6, witness: the theorem applied to the default scenario at leg 1,
where the two consecutive sequence entries are both Venus, so the set has
exactly the 2 mandatory entries and no duplicate. -/
theorem accelerationModels_per_leg_witness :
    (getAccelerationModelsPerturbedPatchedConicsTrajectory 5 "Sun" "Spacecraft" transferBodyOrder).length = 5 ∧
    (getAccelerationModelsPerturbedPatchedConicsTrajectory 5 "Sun" "Spacecraft" transferBodyOrder).getD 1
        ("Spacecraft", [])
      = ("Spacecraft", legAccelerationSettings 5 "Sun" transferBodyOrder 1) ∧
    ("Sun", AccelType.central_gravity) ∈ legAccelerationSettings 5 "Sun" transferBodyOrder 1 ∧
    (bodyAt transferBodyOrder 1, AccelType.point_mass_gravity) ∈ legAccelerationSettings 5 "Sun" transferBodyOrder 1 ∧
    (if (1 : ℕ) ≠ 5 - 1 ∧ bodyAt transferBodyOrder 1 ≠ bodyAt transferBodyOrder (1 + 1) then
       (legAccelerationSettings 5 "Sun" transferBodyOrder 1).length = 3 ∧
         (bodyAt transferBodyOrder (1 + 1), AccelType.point_mass_gravity) ∈
           legAccelerationSettings 5 "Sun" transferBodyOrder 1
     else (legAccelerationSettings 5 "Sun" transferBodyOrder 1).length = 2) ∧
    (legAccelerationSettings 5 "Sun" transferBodyOrder 1).Nodup :=
  accelerationModels_per_leg 5 "Sun" "Spacecraft" transferBodyOrder 1 (by decide)

/-- Claim C7.  For every leg index i, the running currentArcMiddleTime value
equals the first-leg start epoch plus the durations of all legs before leg i
plus half of the duration of leg i, and, converted from days to seconds, it
is the arithmetic mean of the start and end epochs of leg i. -/
theorem currentArcMiddleTime_is_leg_midpoint (p : ℕ → ℚ) (i : ℕ) :
    currentArcMiddleTime p i
      = p 0 + (Finset.range i).sum (fun j => p (j + 1)) + p (i + 1) / 2 ∧
    currentArcMiddleTime p i * julianDay
      = (legStartDay p i * julianDay + legEndDay p i * julianDay) / 2 := by
  have h : ∀ k, currentArcMiddleTime p k
      = p 0 + (Finset.range k).sum (fun j => p (j + 1)) + p (k + 1) / 2 := by
    intro k
    induction k with
    | zero => simp [currentArcMiddleTime]
    | succ n ih =>
      rw [currentArcMiddleTime, ih, Finset.sum_range_succ]
      ring
  refine ⟨h i, ?_⟩
  rw [h i, legEndDay, legStartDay]
  ring

/-- Claim C8, counterexample.  The claim states that an IntegrationError in
one leg aborts only that leg and all other legs are still processed and
emitted.  In the source loop (lines 272-328) there is no handler, so the
error escapes the whole loop: here is a two-leg run whose first leg fails
interpolation; the whole loop result is the error and nothing is emitted,
although the second leg on its own reconciles successfully. -/
theorem integration_error_not_isolated_counterexample :
    reconcileAllLegsE cexSimulateE cexInterpE [(0, 1), (0, 1)] (fun _ => 2) 2
        [(0, [(0, v6 9)]), (1, [(0, v6 1)])] cexLoopState
      = .error .interpolationOutsideDomain ∧
    isOkE (processArcE cexSimulateE cexInterpE [(0, 1), (0, 1)] (fun _ => 2) 2
        cexLoopState (1, [(0, v6 1)])) = true :=
  ⟨by rfl, by rfl⟩

/-- Claim C8, amended.  An IntegrationError raised while reconciling a leg
propagates out of the loop: when the first leg of the remaining list fails,
the whole loop evaluates to that error, so no later leg is processed and no
further results are emitted. -/
theorem error_aborts_remaining_legs
    (simulateE : PropagatorSettings → IntegratorSettings → Except IntegrationError LegHistory)
    (interpE : LegHistory → ℕ → ℚ → Except IntegrationError Vector6)
    (pairs : List (ℕ × ℕ)) (p : ℕ → ℚ) (numArcs : ℕ)
    (arc : ℕ × LegHistory) (rest : List (ℕ × LegHistory))
    (st : LoopState) (e : IntegrationError)
    (h : processArcE simulateE interpE pairs p numArcs st arc = .error e) :
    reconcileAllLegsE simulateE interpE pairs p numArcs (arc :: rest) st = .error e := by
  simp only [reconcileAllLegsE, List.foldlM, h]
  rfl

/-- Claim C8, witness: the amended theorem applied to the concrete failing
leg followed by a healthy one. -/
theorem error_aborts_remaining_legs_witness :
    processArcE cexSimulateE cexInterpE [(0, 1)] (fun _ => 2) 2 cexLoopState
        (0, [(0, v6 9)]) = .error .interpolationOutsideDomain ∧
    reconcileAllLegsE cexSimulateE cexInterpE [(0, 1)] (fun _ => 2) 2
        ((0, [(0, v6 9)]) :: [(1, [(0, v6 1)])]) cexLoopState
      = .error .interpolationOutsideDomain :=
  ⟨by rfl,
   error_aborts_remaining_legs cexSimulateE cexInterpE [(0, 1)] (fun _ => 2) 2
     (0, [(0, v6 9)]) [(1, [(0, v6 1)])] cexLoopState
     IntegrationError.interpolationOutsideDomain (by rfl)⟩

/-- Claim C9.  Re-running the embedded pipeline with the identical parameter
vector and identical (deterministic) external solvers yields the identical
result: totals, maneuver sequence, analytic histories and reconciliation
state. -/
theorem pipeline_deterministic (ext : ExternalSolvers) (params1 params2 : List ℚ)
    (h : params1 = params2) :
    runPipeline ext params1 = runPipeline ext params2 := by
  rw [h]

/-- Claim C9, witness: two runs at the default parameter vector coincide. -/
theorem pipeline_deterministic_witness :
    trajectoryParameters = trajectoryParameters ∧
    runPipeline constExternalSolvers trajectoryParameters
      = runPipeline constExternalSolvers trajectoryParameters :=
  ⟨rfl, pipeline_deterministic constExternalSolvers trajectoryParameters trajectoryParameters rfl⟩

/-- Claim C10.  For every leg, the forward and backward simulators are
constructed from the same stored settings object (the pair member .2; the
member .1 is never read, witnessed by invariance of the whole loop body
under replacing the pairs list by any list with the same .2 entry): the
backward reset overwrites the forward termination epoch in the store, the
final stored object is the backward-configured one, and the two integrator
configurations differ only in the sign of the shared time step. -/
theorem backward_run_reuses_forward_settings_object
    (simulate : PropagatorSettings → IntegratorSettings → LegHistory)
    (interp : LegHistory → ℕ → ℚ → Vector6)
    (pairs pairs2 : List (ℕ × ℕ)) (p : ℕ → ℚ) (numArcs : ℕ)
    (st : LoopState) (arc : ℕ × LegHistory)
    (hid : (pairs.getD arc.1 (0, 0)).2 < st.store.length)
    (hpairs : (pairs2.getD arc.1 (0, 0)).2 = (pairs.getD arc.1 (0, 0)).2) :
    ∃ fwdS bwdS : PropagatorSettings, ∃ fwdI bwdI : IntegratorSettings,
      (processArc simulate interp pairs p numArcs st arc).outputs
        = st.outputs ++ [{ arcIndex := arc.1
                           forwardHistory := simulate fwdS fwdI
                           backwardHistory := simulate bwdS bwdI }] ∧
      bwdS = { fwdS with terminationTime := histFirstTime arc.2 } ∧
      bwdI = { fwdI with initialTimeStep := -fwdI.initialTimeStep } ∧
      (processArc simulate interp pairs p numArcs st arc).store.getD
          ((pairs.getD arc.1 (0, 0)).2) default = bwdS ∧
      processArc simulate interp pairs2 p numArcs st arc
        = processArc simulate interp pairs p numArcs st arc := by
  have hb : (st.store.set ((pairs.getD arc.1 (0, 0)).2)
        { st.store.getD ((pairs.getD arc.1 (0, 0)).2) default with
          initialStates := interp arc.2 8 (st.middleTime * 86400)
          terminationTime := histLastTime arc.2 }).getD ((pairs.getD arc.1 (0, 0)).2) default
      = { st.store.getD ((pairs.getD arc.1 (0, 0)).2) default with
          initialStates := interp arc.2 8 (st.middleTime * 86400)
          terminationTime := histLastTime arc.2 } :=
    getD_set_self _ _ _ hid
  refine ⟨{ st.store.getD ((pairs.getD arc.1 (0, 0)).2) default with
            initialStates := interp arc.2 8 (st.middleTime * 86400)
            terminationTime := histLastTime arc.2 },
          { (st.store.set ((pairs.getD arc.1 (0, 0)).2)
              { st.store.getD ((pairs.getD arc.1 (0, 0)).2) default with
                initialStates := interp arc.2 8 (st.middleTime * 86400)
                terminationTime := histLastTime arc.2 }).getD ((pairs.getD arc.1 (0, 0)).2) default with
            initialStates := interp arc.2 8 (st.middleTime * 86400)
            terminationTime := histFirstTime arc.2 },
          { st.integrator with initialTime := st.middleTime * 86400
                               initialTimeStep := |st.integrator.initialTimeStep| },
          { st.integrator with initialTime := st.middleTime * 86400
                               initialTimeStep := |st.integrator.initialTimeStep| * (-1) },
          rfl, ?_, ?_, ?_, ?_⟩
  · rw [hb]
  · rw [mul_neg_one]
  · exact getD_set_self _ _ _ (by simpa using hid)
  · simp only [processArc, hpairs]

/-- Claim C10, witness: the theorem applied to a concrete one-leg run, with a
second pairs list that differs in the .1 entry only. -/
theorem backward_run_reuses_forward_settings_object_witness :
    (([(0, 0)] : List (ℕ × ℕ)).getD (0, [(0, (default : Vector6))]).1 (0, 0)).2
        < witnessState.store.length ∧
    (([(99, 0)] : List (ℕ × ℕ)).getD (0, [(0, (default : Vector6))]).1 (0, 0)).2
      = (([(0, 0)] : List (ℕ × ℕ)).getD (0, [(0, (default : Vector6))]).1 (0, 0)).2 ∧
    (∃ fwdS bwdS : PropagatorSettings, ∃ fwdI bwdI : IntegratorSettings,
      (processArc echoSimulate headInterp [(0, 0)] (fun _ => 0) 1 witnessState
          (0, [(0, (default : Vector6))])).outputs
        = witnessState.outputs ++ [{ arcIndex := (0, [(0, (default : Vector6))]).1
                                     forwardHistory := echoSimulate fwdS fwdI
                                     backwardHistory := echoSimulate bwdS bwdI }] ∧
      bwdS = { fwdS with terminationTime := histFirstTime (0, [(0, (default : Vector6))]).2 } ∧
      bwdI = { fwdI with initialTimeStep := -fwdI.initialTimeStep } ∧
      (processArc echoSimulate headInterp [(0, 0)] (fun _ => 0) 1 witnessState
          (0, [(0, (default : Vector6))])).store.getD
          ((([(0, 0)] : List (ℕ × ℕ)).getD (0, [(0, (default : Vector6))]).1 (0, 0)).2) default
        = bwdS ∧
      processArc echoSimulate headInterp [(99, 0)] (fun _ => 0) 1 witnessState
          (0, [(0, (default : Vector6))])
        = processArc echoSimulate headInterp [(0, 0)] (fun _ => 0) 1 witnessState
          (0, [(0, (default : Vector6))])) :=
  ⟨by decide, by decide,
   backward_run_reuses_forward_settings_object echoSimulate headInterp [(0, 0)] [(99, 0)]
     (fun _ => 0) 1 witnessState (0, [(0, (default : Vector6))]) (by decide) (by decide)⟩

end HighThrustTransfer
